import Mathlib

/-!
# Pipeline operator: bootstrap and resource-watch core

A shallow embedding of `cmd/agent/main.go` and `operator/pipeline/crd.go`.

Calls into collaborators whose code lives outside these two files (client-go,
kooper, the operator engine, the generated API packages) are embedded as
fields of an environment record, and every such call is written to an event
trace, so that "which call happened, with which arguments, how often" is a
statement about a list.
-/

set_option linter.constructorNameAsVariable false

namespace PipelineOperator

/-! ## Values shared by both files -/

/-- A Go `error` value.  The two files only ever test an error against `nil`
and format it with `%s`, so an error is its message; `nil` is `none` of
`Option GoError`. -/
structure GoError where
  msg : String
deriving DecidableEq, Repr

/-- The call `fmt.Errorf(pre ++ "%s", err)`: a fresh error whose message is the
literal part of the format followed by `err.Error()`. -/
def Errorf (pre : String) (err : GoError) : GoError :=
  ⟨pre ++ err.msg⟩

/-- The three channels `main` creates (main.go lines 102-104). -/
inductive Chan
  | stopC
  | finishC
  | signalC
deriving DecidableEq, Repr

/-- Operating-system signals the model distinguishes. -/
inductive Signal
  | SIGTERM
  | SIGINT
  | SIGUSR1
deriving DecidableEq, Repr

/-- Handle of type `*rest.Config`. -/
structure RestConfig where
  id : Nat
deriving DecidableEq, Repr

/-- Handle of type `kubernetes.Interface`. -/
structure K8sCli where
  id : Nat
deriving DecidableEq, Repr

/-- Handle of type `agentv1alpha1.Interface` (the typed custom-resource client
of main.go). -/
structure PipeCli where
  id : Nat
deriving DecidableEq, Repr

/-- Handle of type `apiextensionscli.Interface`. -/
structure AexCli where
  id : Nat
deriving DecidableEq, Repr

/-- Handle of type `crd.Interface` as main.go sees it. -/
structure CrdCli where
  id : Nat
deriving DecidableEq, Repr

/-- Handle of the value `operator.New` returns. -/
structure Operator where
  id : Nat
deriving DecidableEq, Repr

/-- Value of type `operator.Config`. -/
structure OperatorConfig where
  id : Nat
deriving DecidableEq, Repr

/-- Value of type `log.Logger`. -/
structure Logger where
  id : Nat
deriving DecidableEq, Repr

/-- The fields of `Flags` that main.go reads. -/
structure Flags where
  Development : Bool
  KubeConfig : String
deriving DecidableEq, Repr

/-- The struct `Main` (main.go lines 23-27). -/
structure Main where
  flags : Flags
  config : OperatorConfig
  logger : Logger
deriving DecidableEq, Repr

/-- The fields of `crd.Conf` that crd.go sets (lines 31-37); every other field
of the struct keeps its zero value. -/
structure Conf where
  Kind : String
  NamePlural : String
  Group : String
  Version : String
  Scope : String
deriving DecidableEq, Repr

/-- Value of type `metav1.ListOptions`. -/
structure ListOptions where
  LabelSelector : String
  FieldSelector : String
  Watch : Bool
  ResourceVersion : String
  TimeoutSeconds : Option Int
  Limit : Int
  Continue : String
deriving DecidableEq, Repr

/-- What a call of a function that may never come back does. -/
inductive RunResult
  | returns (err : Option GoError)
  | blocks
deriving DecidableEq, Repr

/-- Every effect the two files perform: calls into collaborators, channel
operations, output, process exit. -/
inductive Event
  | Infof (msg : String)
  | BuildConfigFromFlags (masterUrl kubeconfigPath : String)
  | loadKubeconfig (masterUrl kubeconfigPath : String)
  | inClusterPossible
  | InClusterConfig
  | kubernetesNewForConfig (cfg : RestConfig)
  | agentNewForConfig (cfg : RestConfig)
  | apiextensionsNewForConfig (cfg : RestConfig)
  | crdNewClient (aexCli : AexCli) (logger : Logger)
  | operatorNew (config : OperatorConfig) (pipeCli : Option PipeCli)
      (crdCli : Option CrdCli) (k8sCli : Option K8sCli) (logger : Logger)
  | opRun (op : Operator) (stopC : Chan)
  | make (c : Chan) (capacity : Nat)
  | signalNotify (c : Chan) (sigs : List Signal)
  | go
  | send (c : Chan)
  | recv (c : Chan)
  | close (c : Chan)
  | FprintfStderr (text : String)
  | osExit (code : Nat)
  | EnsurePresent (conf : Conf)
  | ListPipelines (ns : String) (options : ListOptions)
  | WatchPipelines (ns : String) (options : ListOptions)
deriving DecidableEq, Repr

/-- How client-go's deferred loader ends when it loads and merges the
kubeconfig named by an explicit path: the file cannot be read or parsed, or
the configuration is invalid (the error is returned at once); the loaded
configuration is empty (the "no configuration has been provided" error); the
configuration is valid and differs from the defaults; the configuration is
valid and equal to the defaults. -/
inductive LoadResult
  | failed (err : GoError)
  | empty (err : GoError)
  | loaded (cfg : RestConfig)
  | defaults (cfg : RestConfig)
deriving DecidableEq, Repr

/-- The collaborators of main.go: one field per external function or resource
it reaches.  A `(value, error)` result of which the caller uses the value only
when the error is `nil` is an `Except`.

* `loadKubeconfig masterUrl path`: reading the kubeconfig file at `path`.
* `inClusterPossible`: whether the process environment looks like a pod
  (service host and port set, token file there).
* `InClusterConfig`: `rest.InClusterConfig()`, the ambient source. -/
structure World where
  loadKubeconfig : String → String → LoadResult
  inClusterPossible : Bool
  InClusterConfig : Except GoError RestConfig
  kubernetesNewForConfig : RestConfig → Except GoError K8sCli
  agentNewForConfig : RestConfig → Except GoError PipeCli
  apiextensionsNewForConfig : RestConfig → Except GoError AexCli
  crdNewClient : AexCli → Logger → CrdCli
  operatorNew : OperatorConfig → Option PipeCli → Option CrdCli → Option K8sCli →
    Logger → Except GoError Operator
  opRun : Operator → Chan → RunResult

/-! ## client-go: `clientcmd.BuildConfigFromFlags`

main.go calls this library function in development mode.  It is not among the
two files; it is embedded here after client-go, because whether the ambient
source is consulted in development mode is decided inside it. -/

/-- The call `NewNonInteractiveDeferredLoadingClientConfig(rules,
overrides).ClientConfig()` of client-go with `rules.ExplicitPath =
kubeconfigPath` and the server override `masterUrl`: an error other than
"empty configuration" is returned at once, a valid configuration that differs
from the defaults is returned, and otherwise the in-cluster configuration is
used when the environment makes it possible, the merged result when not. -/
def deferredClientConfig (w : World) (masterUrl kubeconfigPath : String) :
    List Event × Except GoError RestConfig :=
  match w.loadKubeconfig masterUrl kubeconfigPath with
  | .failed err => ([Event.loadKubeconfig masterUrl kubeconfigPath], Except.error err)
  | .loaded cfg => ([Event.loadKubeconfig masterUrl kubeconfigPath], Except.ok cfg)
  | .empty err =>
    if w.inClusterPossible then
      ([Event.loadKubeconfig masterUrl kubeconfigPath, Event.inClusterPossible,
          Event.InClusterConfig], w.InClusterConfig)
    else
      ([Event.loadKubeconfig masterUrl kubeconfigPath, Event.inClusterPossible],
        Except.error err)
  | .defaults cfg =>
    if w.inClusterPossible then
      ([Event.loadKubeconfig masterUrl kubeconfigPath, Event.inClusterPossible,
          Event.InClusterConfig], w.InClusterConfig)
    else
      ([Event.loadKubeconfig masterUrl kubeconfigPath, Event.inClusterPossible],
        Except.ok cfg)

/-- The function `clientcmd.BuildConfigFromFlags` of client-go, with the trace
of what it consults.  Its documentation: "If neither masterUrl or
kubeconfigPath are passed in we fallback to inClusterConfig. If
inClusterConfig fails, we fallback to the default config." -/
def BuildConfigFromFlags (w : World) (masterUrl kubeconfigPath : String) :
    List Event × Except GoError RestConfig :=
  if kubeconfigPath = "" ∧ masterUrl = "" then
    match w.InClusterConfig with
    | .ok kubeconfig => ([Event.InClusterConfig], Except.ok kubeconfig)
    | .error _ =>
      (Event.InClusterConfig :: (deferredClientConfig w masterUrl kubeconfigPath).1,
        (deferredClientConfig w masterUrl kubeconfigPath).2)
  else deferredClientConfig w masterUrl kubeconfigPath

/-! ## cmd/agent/main.go -/

/-- The error of main.go line 68, the `ConfigurationError` of the error
taxonomy. -/
def ConfigurationError (err : GoError) : GoError :=
  Errorf "could not load configuration: " err

/-- The error of main.go line 73, the `AmbientConfigError` of the error
taxonomy. -/
def AmbientConfigError (err : GoError) : GoError :=
  Errorf "error loading kubernetes configuration inside cluster, check app is running outside kubernetes cluster or run in development mode: " err

/-- The result tuple of `getKubernetesClients`: three handles and an error,
each of which may be `nil`. -/
abbrev Clients := Option PipeCli × Option CrdCli × Option K8sCli × Option GoError

/-- The method `Main.getKubernetesClients` (main.go lines 60-97), with the trace of the
calls it makes; the call of `clientcmd.BuildConfigFromFlags` is followed in the
trace by what that function consults. -/
def Main.getKubernetesClients (w : World) (m : Main) : List Event × Clients :=
  -- If devel mode then use configuration flag path.
  let loaded : List Event × Except GoError RestConfig :=
    if m.flags.Development then
      (Event.BuildConfigFromFlags "" m.flags.KubeConfig ::
          (BuildConfigFromFlags w "" m.flags.KubeConfig).1,
        match (BuildConfigFromFlags w "" m.flags.KubeConfig).2 with
        | .error err => .error (ConfigurationError err)
        | .ok cfg => .ok cfg)
    else
      ([Event.InClusterConfig],
        match w.InClusterConfig with
        | .error err => .error (AmbientConfigError err)
        | .ok cfg => .ok cfg)
  match loaded with
  | (ev, .error err) => (ev, (none, none, none, some err))
  | (ev, .ok cfg) =>
    -- Create clients.
    match w.kubernetesNewForConfig cfg with
    | .error err => (ev ++ [Event.kubernetesNewForConfig cfg], (none, none, none, some err))
    | .ok k8sCli =>
      -- App CRD k8s types client.
      match w.agentNewForConfig cfg with
      | .error err =>
        (ev ++ [Event.kubernetesNewForConfig cfg, Event.agentNewForConfig cfg],
          (none, none, none, some err))
      | .ok pipeCli =>
        -- CRD cli.
        match w.apiextensionsNewForConfig cfg with
        | .error err =>
          (ev ++ [Event.kubernetesNewForConfig cfg, Event.agentNewForConfig cfg,
              Event.apiextensionsNewForConfig cfg],
            (none, none, none, some err))
        | .ok aexCli =>
          (ev ++ [Event.kubernetesNewForConfig cfg, Event.agentNewForConfig cfg,
              Event.apiextensionsNewForConfig cfg, Event.crdNewClient aexCli m.logger],
            (some pipeCli, some (w.crdNewClient aexCli m.logger), some k8sCli, none))

/-- The method `Main.Run` (main.go lines 40-56), with the trace of the calls it makes. -/
def Main.Run (w : World) (m : Main) (stopC : Chan) : List Event × RunResult :=
  let ev0 := [Event.Infof "initializing pod termination operator"]
  -- Get kubernetes rest client.
  match m.getKubernetesClients w with
  | (ev1, (_, _, _, some err)) => (ev0 ++ ev1, RunResult.returns (some err))
  | (ev1, (pipeCli, crdCli, k8sCli, none)) =>
    -- Create the operator and run
    match w.operatorNew m.config pipeCli crdCli k8sCli m.logger with
    | .error err =>
      (ev0 ++ ev1 ++ [Event.operatorNew m.config pipeCli crdCli k8sCli m.logger],
        RunResult.returns (some err))
    | .ok op =>
      (ev0 ++ ev1 ++ [Event.operatorNew m.config pipeCli crdCli k8sCli m.logger,
          Event.opRun op stopC],
        w.opRun op stopC)

/-- Whether an event is a call of `operator.New`. -/
def Event.isOperatorNew : Event → Bool
  | .operatorNew _ _ _ _ _ => true
  | _ => false

/-- Whether an event is a call of the engine's `Run`. -/
def Event.isOpRun : Event → Bool
  | .opRun _ _ => true
  | _ => false

/-- Whether an event is a call of one of the client constructors
(`kubernetes.NewForConfig`, `agentv1alpha1.NewForConfig`,
`apiextensionscli.NewForConfig`, `crd.NewClient`). -/
def Event.isClientConstructor : Event → Bool
  | .kubernetesNewForConfig _ => true
  | .agentNewForConfig _ => true
  | .apiextensionsNewForConfig _ => true
  | .crdNewClient _ _ => true
  | _ => false

/-- Whether an event is a call that resolves the connection configuration. -/
def Event.isConfigLoad : Event → Bool
  | .BuildConfigFromFlags _ _ => true
  | .loadKubeconfig _ _ => true
  | .inClusterPossible => true
  | .InClusterConfig => true
  | _ => false

/-- Where the goroutine of main.go lines 109-111 stands: not yet scheduled;
inside `m.Run(stopC)` for good (the engine does not return); at the send
`finishC <- err` with the value `m.Run` returned, waiting for a receiver (the
channel has no buffer); past the send. -/
inductive GoPc
  | spawned
  | insideRun
  | sending (err : Option GoError)
  | done
deriving DecidableEq, Repr

/-- Where the main goroutine stands from line 113 on: at the `select`; gone
through `os.Exit(1)` (line 117); returned from `main` after the `finishC` case
with a nil error; returned from `main` after the `signalC` case. -/
inductive MainPc
  | select
  | exitedAfterError
  | returnedAfterFinish
  | returnedAfterSignal
deriving DecidableEq, Repr

/-- The process from line 113 of main.go on. -/
structure State where
  mainPc : MainPc
  goPc : GoPc
  signalC : List Signal
  trace : List Event
  stderr : String
  exitStatus : Option Nat
deriving DecidableEq, Repr

/-- What the scheduler and the operating system may do next. -/
inductive Label
  | goroutineRuns
  | deliver (sig : Signal)
  | recvFinish
  | recvSignal
deriving DecidableEq, Repr

/-- The signals line 105 registers `signalC` for. -/
def notified : List Signal := [Signal.SIGTERM, Signal.SIGINT]

/-- The state `main` reaches at its `select` (lines 100-111 done): the three
channels made, `signalC` registered, the goroutine spawned.  `m` is the value
`New(logger)` returned. -/
def initState : State :=
  { mainPc := MainPc.select
    goPc := GoPc.spawned
    signalC := []
    trace := [Event.make Chan.stopC 0, Event.make Chan.finishC 0, Event.make Chan.signalC 1,
      Event.signalNotify Chan.signalC notified, Event.go]
    stderr := ""
    exitStatus := none }

/-- One step of the process.  `none` when the step is not enabled.  Nothing is
enabled once `main` has returned or called `os.Exit`: the process is gone.

* `goroutineRuns`: the goroutine executes `m.Run(stopC)` (line 110) and either
  reaches the send on `finishC` or stays inside the engine.
* `deliver sig`: the runtime relays a registered signal to `signalC` when its
  one-slot buffer has room and drops it otherwise; other signals change
  nothing.
* `recvFinish`: the `select` takes `case err := <-finishC` (lines 114-118).
* `recvSignal`: the `select` takes `case <-signalC` (lines 119-120). -/
def step (w : World) (m : Main) : Label → State → Option State
  | .goroutineRuns, s =>
    if s.mainPc = MainPc.select ∧ s.goPc = GoPc.spawned then
      match m.Run w Chan.stopC with
      | (ev, .returns err) => some { s with goPc := GoPc.sending err, trace := s.trace ++ ev }
      | (ev, .blocks) => some { s with goPc := GoPc.insideRun, trace := s.trace ++ ev }
    else none
  | .deliver sig, s =>
    if s.mainPc = MainPc.select then
      if sig ∈ notified ∧ s.signalC.length < 1 then
        some { s with signalC := s.signalC ++ [sig], trace := s.trace ++ [Event.send Chan.signalC] }
      else some s
    else none
  | .recvFinish, s =>
    if s.mainPc = MainPc.select then
      match s.goPc with
      | .sending (some err) =>
        some { s with
          mainPc := MainPc.exitedAfterError
          goPc := GoPc.done
          trace := s.trace ++ [Event.send Chan.finishC, Event.recv Chan.finishC,
            Event.FprintfStderr ("error running operator: " ++ err.msg), Event.osExit 1]
          stderr := s.stderr ++ ("error running operator: " ++ err.msg)
          exitStatus := some 1 }
      | .sending none =>
        some { s with
          mainPc := MainPc.returnedAfterFinish
          goPc := GoPc.done
          trace := s.trace ++ [Event.send Chan.finishC, Event.recv Chan.finishC]
          exitStatus := some 0 }
      | _ => none
    else none
  | .recvSignal, s =>
    if s.mainPc = MainPc.select then
      match s.signalC with
      | _ :: rest =>
        some { s with
          mainPc := MainPc.returnedAfterSignal
          signalC := rest
          trace := s.trace ++ [Event.recv Chan.signalC, Event.Infof "Signal captured, exiting..."]
          exitStatus := some 0 }
      | [] => none
    else none

/-- The state after a schedule: the labels are tried in order, one that is not
enabled is passed over. -/
def exec (w : World) (m : Main) (ls : List Label) : State :=
  ls.foldl (fun s l => (step w m l s).getD s) initState

/-- The terminal states of the lifecycle state machine. -/
inductive Terminal
  | Completed
  | Signaled
  | Failed
deriving DecidableEq, Repr

/-- The terminal state a control point of `main` stands for (none at the
`select`). -/
def MainPc.terminal : MainPc → Option Terminal
  | .select => none
  | .exitedAfterError => some Terminal.Failed
  | .returnedAfterFinish => some Terminal.Completed
  | .returnedAfterSignal => some Terminal.Signaled

/-- Whether a trace holds an operation that makes receivers of `c` see it
fire: a close of `c` or a send on `c`. -/
def fired (c : Chan) (trace : List Event) : Bool :=
  trace.any (fun ev => ev == Event.close c || ev == Event.send c)

/-- The wait step of `main`: the `select` of lines 113-121 takes one of its two
cases and carries the process from `s` to `s1`. -/
def resolves (w : World) (m : Main) (s s1 : State) : Prop :=
  step w m Label.recvFinish s = some s1 ∨ step w m Label.recvSignal s = some s1

/-! ## operator/pipeline/crd.go -/

/-- Value of type `runtime.Object` as a list call returns it. -/
structure RuntimeObject where
  id : Nat
deriving DecidableEq, Repr

/-- Value of type `watch.Interface`. -/
structure WatchInterface where
  id : Nat
deriving DecidableEq, Repr

/-- The cluster-side table of registered resource types, the state a
registration call reads and writes. -/
structure Cluster where
  types : List Conf
deriving DecidableEq, Repr

/-- The interface `crd.Interface`, reduced to the method crd.go calls.  The
call reads and may change the cluster, so it passes the cluster along. -/
structure CrdInterface where
  EnsurePresent : Conf → Cluster → Option GoError × Cluster

/-- The typed client interface of the `pipeCli` field, reduced to the two
methods crd.go calls.  Each returns a Go `(value, error)` pair, kept as a
pair. -/
structure PipelineInterface where
  ListPipelines : String → ListOptions → Option RuntimeObject × Option GoError
  WatchPipelines : String → ListOptions → Option WatchInterface × Option GoError

/-- The names crd.go reads from the package it imports as
`pipelinedukev1alpha1`; the package itself is not among the two files, so its
constants are parameters. -/
structure V1alpha1 where
  PipelineKind : String
  PipelineName : String
  SchemeGroupVersionGroup : String
  SchemeGroupVersionVersion : String
  PipelineScope : String
deriving DecidableEq, Repr

/-- The struct `PipelineCRD` (crd.go lines 15-19). -/
structure PipelineCRD where
  crdCli : CrdInterface
  kubecCli : K8sCli
  pipeCli : PipelineInterface

/-- The function `newPipelineCRD` (crd.go lines 21-27). -/
def newPipelineCRD (pipeCli : PipelineInterface) (crdCli : CrdInterface) (kubeCli : K8sCli) :
    PipelineCRD :=
  { crdCli := crdCli
    pipeCli := pipeCli
    kubecCli := kubeCli }

/-- The local `crd` of `Initialize` (crd.go lines 31-37). -/
def pipelineConf (v : V1alpha1) : Conf :=
  { Kind := v.PipelineKind
    NamePlural := v.PipelineName
    Group := v.SchemeGroupVersionGroup
    Version := v.SchemeGroupVersionVersion
    Scope := v.PipelineScope }

/-- The method `PipelineCRD.Initialize` (crd.go lines 30-40): the trace of its calls, the
error it returns and the cluster it leaves. -/
def PipelineCRD.Initialize (v : V1alpha1) (p : PipelineCRD) (c : Cluster) :
    List Event × Option GoError × Cluster :=
  let crd := pipelineConf v
  ([Event.EnsurePresent crd], p.crdCli.EnsurePresent crd c)

/-- The struct `cache.ListWatch`, with the two fields crd.go sets.  Each
function yields the trace of the calls it makes and the pair it returns. -/
structure ListWatch where
  ListFunc : ListOptions → List Event × (Option RuntimeObject × Option GoError)
  WatchFunc : ListOptions → List Event × (Option WatchInterface × Option GoError)

/-- The method `PipelineCRD.GetListerWatcher` (crd.go lines 43-52). -/
def PipelineCRD.GetListerWatcher (p : PipelineCRD) : ListWatch :=
  { ListFunc := fun options =>
      ([Event.ListPipelines "" options], p.pipeCli.ListPipelines "" options)
    WatchFunc := fun options =>
      ([Event.WatchPipelines "" options], p.pipeCli.WatchPipelines "" options) }

/-- Whether an event is a call of the type registrar. -/
def Event.isEnsurePresent : Event → Bool
  | .EnsurePresent _ => true
  | _ => false

/-- The method `GetObject` (crd.go lines 55-57), which returns
`&pipelinedukev1alpha1.Pipeline{}`.  The struct `Pipeline` is declared in a
package that is not among the two files, so it is the type parameter `P` and
its zero value is `default`.  The receiver is written `*podTerminatorCRD`, a
type crd.go does not declare; the body does not use the receiver, so the
embedding takes a receiver of any type. -/
def GetObject {R P : Type} [Inhabited P] (_p : R) : P :=
  default

/-- The receiver type names that occur in crd.go. -/
inductive TypeName
  | PipelineCRD
  | podTerminatorCRD
deriving DecidableEq, Repr

/-- The method names that occur in crd.go. -/
inductive MethodName
  | Initialize
  | GetListerWatcher
  | GetObject
deriving DecidableEq, Repr

/-- The type declarations of crd.go (line 15 is the only one). -/
def declaredTypes : List TypeName :=
  [TypeName.PipelineCRD]

/-- The method declarations of crd.go as (receiver, method), in source order
(lines 30, 43 and 55). -/
def methodDecls : List (TypeName × MethodName) :=
  [(TypeName.PipelineCRD, MethodName.Initialize),
   (TypeName.PipelineCRD, MethodName.GetListerWatcher),
   (TypeName.podTerminatorCRD, MethodName.GetObject)]

/-- The methods declared with receiver type `T`. -/
def methodSet (T : TypeName) : List MethodName :=
  (methodDecls.filter (fun d => d.1 = T)).map (fun d => d.2)

/-- The import path main.go binds to `agentv1alpha1` (line 17), split at the
slashes. -/
def agentv1alpha1 : List String :=
  ["github.com", "marjoram", "pipeline-operator", "apis", "pipeline.cncd.io", "v1alpha1"]

/-- The import path crd.go binds to `pipelinedukev1alpha1` (line 11), split at
the slashes. -/
def pipelinedukev1alpha1 : List String :=
  ["github.com", "marjoram", "pipeline-operator", "apis", "pipeline.duke.lol", "v1alpha1"]

/-- The API group a generated API package belongs to: the directory that
follows `apis` in its import path (`apis/<group>/<version>`). -/
def apiGroup : List String → Option String
  | [] => none
  | x :: rest =>
    if x = "apis" then rest.head? else apiGroup rest

/-! ## The type registrar behind `crd.Interface` -/

/-- Modelled from the spec: the outcome of the cluster's creation call for a
resource type (the API server is not part of the sources).  Creation either
registers the type, reports "already exists", or fails for another reason. -/
inductive CreateResult
  | created
  | alreadyExists
  | failed (reason : String)
deriving DecidableEq, Repr

/-- Modelled from the spec: what of the cluster decides whether creation fails
"for a reason other than already exists (e.g., permission denied, malformed
descriptor)": the reason, if any, for which the cluster refuses to create a
descriptor.  A descriptor is valid for the cluster when there is none. -/
structure ClusterAPI where
  refusal : Conf → Option String

/-- Modelled from the spec: "an existing type matching the descriptor's
kind/group/version". -/
def Conf.sameType (a b : Conf) : Bool :=
  a.Kind == b.Kind && a.Group == b.Group && a.Version == b.Version

/-- Modelled from the spec: the registrar's query, whether the cluster holds a
type matching the descriptor. -/
def Cluster.has (c : Cluster) (d : Conf) : Bool :=
  c.types.any (fun t => t.sameType d)

/-- Modelled from the spec: the cluster's creation call.  A refused descriptor
fails with the refusal's reason, a type that is already there is reported as
"already exists", anything else is added to the registered types. -/
def Cluster.create (api : ClusterAPI) (c : Cluster) (d : Conf) : CreateResult × Cluster :=
  match api.refusal d with
  | some reason => (CreateResult.failed reason, c)
  | none =>
    if c.has d then (CreateResult.alreadyExists, c)
    else (CreateResult.created, { types := c.types ++ [d] })

/-- Modelled from the spec: the `RegistrationError` of the error taxonomy,
which the sources do not declare. -/
def RegistrationError (reason : String) : GoError :=
  ⟨"registration failed: " ++ reason⟩

/-- Modelled from the spec: `EnsureRegistered` of the Resource Type Registrar
(section 4.2), whose implementation behind `crd.Interface` is not part of the
sources.  It "queries the cluster for an existing type matching the
descriptor's kind/group/version; if absent, creates it; if present with
matching shape, returns success", and it "fails with RegistrationError if
creation fails for a reason other than already exists".  `racing` are the
types other process instances register between the query and the creation
call. -/
def Registrar.EnsurePresent (api : ClusterAPI) (racing : List Conf) (d : Conf) (c : Cluster) :
    Option GoError × Cluster :=
  if c.has d then (none, c)
  else
    match Cluster.create api { types := c.types ++ racing } d with
    | (.created, c1) => (none, c1)
    | (.alreadyExists, c1) => (none, c1)
    | (.failed reason, c1) => (some (RegistrationError reason), c1)

/-- Modelled from the spec: the registrar as a value of `crd.Interface`. -/
def Registrar.client (api : ClusterAPI) (racing : List Conf) : CrdInterface :=
  { EnsurePresent := Registrar.EnsurePresent api racing }

/-- The property of a trace that the stop channel has been neither closed nor
sent on, and that every call of the engine got the stop channel. -/
def stopUntouched (trace : List Event) : Prop :=
  ∀ ev ∈ trace,
    ev ≠ Event.close Chan.stopC ∧ ev ≠ Event.send Chan.stopC ∧
    ∀ op c, ev = Event.opRun op c → c = Chan.stopC

/-! ## Concrete worlds -/

/-- A world in which both configuration sources fail and every constructor
would succeed. -/
def failingConfigWorld : World :=
  { loadKubeconfig := fun _ path =>
      if path = "" then
        LoadResult.empty ⟨"invalid configuration: no configuration has been provided"⟩
      else LoadResult.failed ⟨"stat " ++ path ++ ": no such file or directory"⟩
    inClusterPossible := false
    InClusterConfig := Except.error ⟨"unable to load in-cluster configuration"⟩
    kubernetesNewForConfig := fun _ => Except.ok ⟨1⟩
    agentNewForConfig := fun _ => Except.ok ⟨2⟩
    apiextensionsNewForConfig := fun _ => Except.ok ⟨3⟩
    crdNewClient := fun _ _ => ⟨4⟩
    operatorNew := fun _ _ _ _ _ => Except.ok ⟨5⟩
    opRun := fun _ _ => RunResult.returns none }

/-- A world in which every construction succeeds and the engine never
returns. -/
def blockingWorld : World :=
  { loadKubeconfig := fun _ _ => LoadResult.loaded ⟨0⟩
    inClusterPossible := true
    InClusterConfig := Except.ok ⟨0⟩
    kubernetesNewForConfig := fun _ => Except.ok ⟨1⟩
    agentNewForConfig := fun _ => Except.ok ⟨2⟩
    apiextensionsNewForConfig := fun _ => Except.ok ⟨3⟩
    crdNewClient := fun _ _ => ⟨4⟩
    operatorNew := fun _ _ _ _ _ => Except.ok ⟨5⟩
    opRun := fun _ _ => RunResult.blocks }

/-- A world in which the clients are built and `operator.New` fails. -/
def failingNewWorld : World :=
  { blockingWorld with operatorNew := fun _ _ _ _ _ => Except.error ⟨"invalid config"⟩ }

/-- A world in which every construction succeeds and the engine returns an
error. -/
def failingEngineWorld : World :=
  { blockingWorld with opRun := fun _ _ => RunResult.returns (some ⟨"lost lease"⟩) }

/-- A `Main` in ambient mode. -/
def ambientMain : Main :=
  { flags := { Development := false, KubeConfig := "" }
    config := ⟨0⟩
    logger := ⟨0⟩ }

/-- A `Main` in development mode with no kubeconfig path given. -/
def develMainNoPath : Main :=
  { flags := { Development := true, KubeConfig := "" }
    config := ⟨0⟩
    logger := ⟨0⟩ }

/-- A `Main` in development mode, pointed at a file that is not there. -/
def develMain : Main :=
  { flags := { Development := true, KubeConfig := "/nowhere" }
    config := ⟨0⟩
    logger := ⟨0⟩ }

/-- The descriptor constants of the Pipeline kind used in examples. -/
def pipelineV1alpha1 : V1alpha1 :=
  { PipelineKind := "Pipeline"
    PipelineName := "pipelines"
    SchemeGroupVersionGroup := "pipeline.duke.lol"
    SchemeGroupVersionVersion := "v1alpha1"
    PipelineScope := "Namespaced" }

/-- A typed client whose calls return nothing. -/
def idlePipelineClient : PipelineInterface :=
  { ListPipelines := fun _ _ => (none, none)
    WatchPipelines := fun _ _ => (none, none) }

/-! ## Theorems: `Main.getKubernetesClients` and `Main.Run` -/

/-- Everything `clientcmd.BuildConfigFromFlags` consults belongs to resolving
the configuration. -/
theorem BuildConfigFromFlags_trace (w : World) (masterUrl kubeconfigPath : String) :
    ∀ ev ∈ (BuildConfigFromFlags w masterUrl kubeconfigPath).1, ev.isConfigLoad = true := by
  have hdef : ∀ ev ∈ (deferredClientConfig w masterUrl kubeconfigPath).1,
      ev.isConfigLoad = true := by
    intro ev hev
    unfold deferredClientConfig at hev
    cases hL : w.loadKubeconfig masterUrl kubeconfigPath <;>
      cases hP : w.inClusterPossible <;>
      simp [hL, hP] at hev <;>
      (try casesm* _ ∨ _) <;> subst_vars <;> simp [Event.isConfigLoad]
  intro ev hev
  unfold BuildConfigFromFlags at hev
  by_cases hc : kubeconfigPath = "" ∧ masterUrl = ""
  · cases hI : w.InClusterConfig with
    | error e =>
      simp only [hc, and_self, if_true, hI, List.mem_cons] at hev
      rcases hev with rfl | hev
      · simp [Event.isConfigLoad]
      · obtain ⟨h1, h2⟩ := hc
        subst h1; subst h2
        exact hdef ev hev
    | ok cfg =>
      simp [hc, hI] at hev
      subst hev; simp [Event.isConfigLoad]
  · rw [if_neg hc] at hev
    exact hdef ev hev

/-- Every call `getKubernetesClients` makes loads the configuration or
constructs a client. -/
theorem getKubernetesClients_trace (w : World) (m : Main) :
    ∀ ev ∈ (m.getKubernetesClients w).1,
      ev.isConfigLoad = true ∨ ev.isClientConstructor = true := by
  intro ev hev
  unfold Main.getKubernetesClients at hev
  cases hD : m.flags.Development
  · cases hL : w.InClusterConfig with
    | error e =>
      simp [hD, hL] at hev
      subst hev; simp [Event.isConfigLoad]
    | ok cfg =>
      cases hK : w.kubernetesNewForConfig cfg <;>
      cases hA : w.agentNewForConfig cfg <;>
      cases hX : w.apiextensionsNewForConfig cfg <;>
      simp [hD, hL, hK, hA, hX] at hev <;>
      casesm* _ ∨ _ <;> subst_vars <;>
      simp [Event.isConfigLoad, Event.isClientConstructor]
  · have hB := BuildConfigFromFlags_trace w "" m.flags.KubeConfig
    rcases hL : BuildConfigFromFlags w "" m.flags.KubeConfig with ⟨evs, r⟩
    rw [hL] at hB
    cases r with
    | error e =>
      simp [hD, hL] at hev
      rcases hev with rfl | hev
      · simp [Event.isConfigLoad]
      · exact Or.inl (hB ev hev)
    | ok cfg =>
      cases hK : w.kubernetesNewForConfig cfg <;>
      cases hA : w.agentNewForConfig cfg <;>
      cases hX : w.apiextensionsNewForConfig cfg <;>
      simp [hD, hL, hK, hA, hX] at hev <;>
      casesm* _ ∨ _ <;>
      first
        | exact Or.inl (hB ev (by assumption))
        | (subst_vars; simp [Event.isConfigLoad, Event.isClientConstructor])

/-- C4, as the code has it: when resolving the connection configuration fails,
`getKubernetesClients` fails before any client is built.  In development mode
every failure of `clientcmd.BuildConfigFromFlags("", flags.KubeConfig)` yields
the configuration error, whose message starts with
"could not load configuration: ", with the three handles nil and no client
constructor called.  When `flags.KubeConfig` is not empty and the file at it
cannot be read or parsed, the call and the file load are all that happens: the
ambient source is not consulted.  When `flags.KubeConfig` is empty, the library
consults the in-cluster source before anything else.  Outside development mode
a failing in-cluster configuration is the only call made (no file is loaded)
and the error is the ambient-credentials error, again with nil handles and no
client constructor called. -/
theorem getKubernetesClients_config_failure (w : World) (m : Main) :
    (∀ err, m.flags.Development = true →
      (BuildConfigFromFlags w "" m.flags.KubeConfig).2 = Except.error err →
        (m.getKubernetesClients w).2 = (none, none, none, some (ConfigurationError err)) ∧
        (ConfigurationError err).msg = "could not load configuration: " ++ err.msg ∧
        (m.getKubernetesClients w).1 =
          Event.BuildConfigFromFlags "" m.flags.KubeConfig ::
            (BuildConfigFromFlags w "" m.flags.KubeConfig).1 ∧
        ∀ ev ∈ (m.getKubernetesClients w).1, ev.isClientConstructor = false) ∧
    (∀ err, m.flags.Development = true → m.flags.KubeConfig ≠ "" →
      w.loadKubeconfig "" m.flags.KubeConfig = LoadResult.failed err →
        (m.getKubernetesClients w).2 = (none, none, none, some (ConfigurationError err)) ∧
        (m.getKubernetesClients w).1 =
          [Event.BuildConfigFromFlags "" m.flags.KubeConfig,
            Event.loadKubeconfig "" m.flags.KubeConfig] ∧
        Event.InClusterConfig ∉ (m.getKubernetesClients w).1 ∧
        Event.inClusterPossible ∉ (m.getKubernetesClients w).1) ∧
    (m.flags.Development = true → m.flags.KubeConfig = "" →
        (m.getKubernetesClients w).1.take 2 =
          [Event.BuildConfigFromFlags "" "", Event.InClusterConfig] ∧
        Event.InClusterConfig ∈ (m.getKubernetesClients w).1) ∧
    (∀ err, m.flags.Development = false →
      w.InClusterConfig = Except.error err →
        (m.getKubernetesClients w).2 = (none, none, none, some (AmbientConfigError err)) ∧
        (AmbientConfigError err).msg =
          "error loading kubernetes configuration inside cluster, check app is running outside kubernetes cluster or run in development mode: "
            ++ err.msg ∧
        (m.getKubernetesClients w).1 = [Event.InClusterConfig] ∧
        (∀ a b, Event.BuildConfigFromFlags a b ∉ (m.getKubernetesClients w).1 ∧
          Event.loadKubeconfig a b ∉ (m.getKubernetesClients w).1) ∧
        ∀ ev ∈ (m.getKubernetesClients w).1, ev.isClientConstructor = false) := by
  have hdev : ∀ err, m.flags.Development = true →
      (BuildConfigFromFlags w "" m.flags.KubeConfig).2 = Except.error err →
      m.getKubernetesClients w =
        (Event.BuildConfigFromFlags "" m.flags.KubeConfig ::
            (BuildConfigFromFlags w "" m.flags.KubeConfig).1,
          (none, none, none, some (ConfigurationError err))) := by
    intro err hD hL
    simp [Main.getKubernetesClients, hD, hL]
  refine ⟨?_, ?_, ?_, ?_⟩
  · intro err hD hL
    have hB := BuildConfigFromFlags_trace w "" m.flags.KubeConfig
    rw [hdev err hD hL]
    refine ⟨rfl, rfl, rfl, ?_⟩
    intro ev hev
    rcases List.mem_cons.mp hev with rfl | hev
    · rfl
    · have := hB ev hev
      cases ev <;> simp_all [Event.isConfigLoad, Event.isClientConstructor]
  · intro err hD hP hL
    have hB : BuildConfigFromFlags w "" m.flags.KubeConfig =
        ([Event.loadKubeconfig "" m.flags.KubeConfig], Except.error err) := by
      simp [BuildConfigFromFlags, deferredClientConfig, hP, hL]
    have h := hdev err hD (by rw [hB])
    rw [h, hB]
    simp
  · intro hD hP
    have hB : ∃ evs, (BuildConfigFromFlags w "" "").1 = Event.InClusterConfig :: evs := by
      unfold BuildConfigFromFlags
      cases hI : w.InClusterConfig <;> simp
    obtain ⟨evs, hevs⟩ := hB
    have hpre : ∃ rest, (m.getKubernetesClients w).1 =
        Event.BuildConfigFromFlags "" "" :: Event.InClusterConfig :: rest := by
      unfold Main.getKubernetesClients
      rw [hP]
      rcases hL : BuildConfigFromFlags w "" "" with ⟨evs0, r⟩
      rw [hL] at hevs
      simp only at hevs
      subst hevs
      cases r with
      | error e => simp [hD]
      | ok cfg =>
        cases hK : w.kubernetesNewForConfig cfg <;>
        cases hA : w.agentNewForConfig cfg <;>
        cases hX : w.apiextensionsNewForConfig cfg <;>
        simp [hD, hK, hA, hX]
    obtain ⟨rest, hrest⟩ := hpre
    rw [hrest]
    simp
  · intro err hD hL
    have h : m.getKubernetesClients w =
        ([Event.InClusterConfig], (none, none, none, some (AmbientConfigError err))) := by
      simp [Main.getKubernetesClients, hD, hL]
    rw [h]
    simp [AmbientConfigError, Errorf, Event.isClientConstructor]

/-- C4 as amended, at a concrete input: development mode with a missing file at
a path that is not empty. -/
theorem getKubernetesClients_config_failure_witness :
    (develMain.getKubernetesClients failingConfigWorld).2 =
        (none, none, none, some (ConfigurationError
          ⟨"stat /nowhere: no such file or directory"⟩)) ∧
    (develMain.getKubernetesClients failingConfigWorld).1 =
        [Event.BuildConfigFromFlags "" "/nowhere", Event.loadKubeconfig "" "/nowhere"] ∧
    Event.InClusterConfig ∉ (develMain.getKubernetesClients failingConfigWorld).1 ∧
    Event.inClusterPossible ∉ (develMain.getKubernetesClients failingConfigWorld).1 :=
  (getKubernetesClients_config_failure failingConfigWorld develMain).2.1
    ⟨"stat /nowhere: no such file or directory"⟩ rfl (by decide) rfl

/-- C4 as stated fails: in development mode with an empty `flags.KubeConfig`,
outside a cluster, loading the configuration fails with the configuration
error and the ambient source has been consulted. -/
theorem getKubernetesClients_ambient_consulted :
    develMainNoPath.flags.Development = true ∧
    (BuildConfigFromFlags failingConfigWorld "" develMainNoPath.flags.KubeConfig).2 =
      Except.error ⟨"invalid configuration: no configuration has been provided"⟩ ∧
    (develMainNoPath.getKubernetesClients failingConfigWorld).2 =
      (none, none, none, some
        ⟨"could not load configuration: invalid configuration: no configuration has been provided"⟩) ∧
    (develMainNoPath.getKubernetesClients failingConfigWorld).1 =
      [Event.BuildConfigFromFlags "" "", Event.InClusterConfig, Event.loadKubeconfig "" "",
        Event.inClusterPossible] ∧
    Event.InClusterConfig ∈ (develMainNoPath.getKubernetesClients failingConfigWorld).1 := by
  refine ⟨rfl, rfl, ?_, ?_, ?_⟩ <;> decide

/-- C1: `Main.Run` is a short-circuiting sequence of `getKubernetesClients`,
`operator.New` and the engine's `Run`.  If client construction fails, `Run`
returns that error and calls neither `operator.New` nor the engine; if
`operator.New` fails, `Run` returns that error, having called `operator.New`
once and the engine never; if both succeed, `Run` calls each once, hands the
engine the stop channel it was given, and does exactly what the engine's `Run`
did (same error, nil, or no return). -/
theorem Run_short_circuits (w : World) (m : Main) (stopC : Chan) :
    (∀ err, (m.getKubernetesClients w).2.2.2.2 = some err →
      (m.Run w stopC).2 = RunResult.returns (some err) ∧
      (m.Run w stopC).1 =
        Event.Infof "initializing pod termination operator" :: (m.getKubernetesClients w).1 ∧
      ∀ ev ∈ (m.Run w stopC).1, ev.isOperatorNew = false ∧ ev.isOpRun = false) ∧
    (∀ pipeCli crdCli k8sCli,
      (m.getKubernetesClients w).2 = (pipeCli, crdCli, k8sCli, none) →
      (∀ err, w.operatorNew m.config pipeCli crdCli k8sCli m.logger = Except.error err →
        (m.Run w stopC).2 = RunResult.returns (some err) ∧
        (m.Run w stopC).1.filter Event.isOperatorNew =
          [Event.operatorNew m.config pipeCli crdCli k8sCli m.logger] ∧
        ∀ ev ∈ (m.Run w stopC).1, ev.isOpRun = false) ∧
      (∀ op, w.operatorNew m.config pipeCli crdCli k8sCli m.logger = Except.ok op →
        (m.Run w stopC).2 = w.opRun op stopC ∧
        (m.Run w stopC).1.filter (fun ev => ev.isOperatorNew || ev.isOpRun) =
          [Event.operatorNew m.config pipeCli crdCli k8sCli m.logger, Event.opRun op stopC])) := by
  have htr := getKubernetesClients_trace w m
  rcases h : m.getKubernetesClients w with ⟨ev1, a, b, c, e⟩
  rw [h] at htr
  have hno : ∀ ev ∈ ev1, ev.isOperatorNew = false ∧ ev.isOpRun = false := by
    intro ev hev
    rcases htr ev hev with h1 | h1 <;> cases ev <;>
      simp_all [Event.isConfigLoad, Event.isClientConstructor, Event.isOperatorNew,
        Event.isOpRun]
  have hf1 : ev1.filter Event.isOperatorNew = [] := by
    rw [List.filter_eq_nil_iff]; intro ev hev; simp [(hno ev hev).1]
  have hf2 : ev1.filter (fun ev => ev.isOperatorNew || ev.isOpRun) = [] := by
    rw [List.filter_eq_nil_iff]; intro ev hev; simp [(hno ev hev).1, (hno ev hev).2]
  refine ⟨?_, ?_⟩
  · intro err herr
    simp only at herr
    subst herr
    refine ⟨by simp [Main.Run, h], by simp [Main.Run, h], ?_⟩
    intro ev hev
    simp [Main.Run, h] at hev
    rcases hev with rfl | hev
    · simp [Event.isOperatorNew, Event.isOpRun]
    · exact hno ev hev
  · intro pipeCli crdCli k8sCli hres
    simp only [Prod.mk.injEq] at hres
    obtain ⟨rfl, rfl, rfl, rfl⟩ := hres
    refine ⟨?_, ?_⟩
    · intro err hnew
      have hrun : m.Run w stopC =
          ([Event.Infof "initializing pod termination operator"] ++ ev1 ++
            [Event.operatorNew m.config a b c m.logger],
            RunResult.returns (some err)) := by
        simp [Main.Run, h, hnew]
      rw [hrun]
      refine ⟨rfl, ?_, ?_⟩
      · simp only [List.filter_append, hf1]
        rfl
      · intro ev hev
        simp at hev
        rcases hev with rfl | hev | rfl
        · simp [Event.isOpRun]
        · exact (hno ev hev).2
        · simp [Event.isOpRun]
    · intro op hnew
      have hrun : m.Run w stopC =
          ([Event.Infof "initializing pod termination operator"] ++ ev1 ++
            [Event.operatorNew m.config a b c m.logger, Event.opRun op stopC],
            w.opRun op stopC) := by
        simp [Main.Run, h, hnew]
      rw [hrun]
      refine ⟨rfl, ?_⟩
      simp only [List.filter_append, hf2]
      rfl

/-- C1 at concrete inputs: a failing `operator.New` is what `Run` returns, and
with both constructions done `Run` does what the engine does. -/
theorem Run_short_circuits_witness :
    (ambientMain.Run failingNewWorld Chan.stopC).2 =
        RunResult.returns (some ⟨"invalid config"⟩) ∧
    (ambientMain.Run failingEngineWorld Chan.stopC).2 =
        RunResult.returns (some ⟨"lost lease"⟩) ∧
    (ambientMain.Run blockingWorld Chan.stopC).2 = RunResult.blocks :=
  ⟨(((Run_short_circuits failingNewWorld ambientMain Chan.stopC).2
      (some ⟨2⟩) (some ⟨4⟩) (some ⟨1⟩) rfl).1 ⟨"invalid config"⟩ rfl).1,
   (((Run_short_circuits failingEngineWorld ambientMain Chan.stopC).2
      (some ⟨2⟩) (some ⟨4⟩) (some ⟨1⟩) rfl).2 ⟨5⟩ rfl).1,
   (((Run_short_circuits blockingWorld ambientMain Chan.stopC).2
      (some ⟨2⟩) (some ⟨4⟩) (some ⟨1⟩) rfl).2 ⟨5⟩ rfl).1⟩

/-! ## Theorems: the wait step of `main` -/

/-- Once `main` has left the `select`, no step is enabled. -/
theorem step_after_select (w : World) (m : Main) (l : Label) (s : State)
    (h : s.mainPc ≠ MainPc.select) : step w m l s = none := by
  cases l <;> simp [step, h]

/-- C2: the wait step maps every resolution of the race to one terminal state
and exit status.  With the engine's result ready and nil the step ends in
Completed with status 0 and nothing written to the error stream; with the
result ready and an error `e` it ends in Failed with status 1 and
"error running operator: " followed by `e` appended to the error stream; with a
signal ready it ends in Signaled with status 0.  A resolution happens only on a
ready channel, it always reaches a terminal state, and after it no further step
of the process is enabled, so the wait step resolves at most once. -/
theorem wait_step_terminal (w : World) (m : Main) (s : State) :
    (s.mainPc = MainPc.select → s.goPc = GoPc.sending none →
      ∃ s1, step w m Label.recvFinish s = some s1 ∧
        s1.mainPc.terminal = some Terminal.Completed ∧ s1.exitStatus = some 0 ∧
        s1.stderr = s.stderr) ∧
    (∀ e, s.mainPc = MainPc.select → s.goPc = GoPc.sending (some e) →
      ∃ s1, step w m Label.recvFinish s = some s1 ∧
        s1.mainPc.terminal = some Terminal.Failed ∧ s1.exitStatus = some 1 ∧
        s1.stderr = s.stderr ++ ("error running operator: " ++ e.msg)) ∧
    (∀ sig rest, s.mainPc = MainPc.select → s.signalC = sig :: rest →
      ∃ s1, step w m Label.recvSignal s = some s1 ∧
        s1.mainPc.terminal = some Terminal.Signaled ∧ s1.exitStatus = some 0 ∧
        s1.stderr = s.stderr) ∧
    (∀ s1, resolves w m s s1 →
      s.mainPc = MainPc.select ∧ ((∃ err, s.goPc = GoPc.sending err) ∨ s.signalC ≠ []) ∧
      (∃ t, s1.mainPc.terminal = some t) ∧
      (∀ l, step w m l s1 = none) ∧ ∀ s2, ¬ resolves w m s1 s2) := by
  refine ⟨?_, ?_, ?_, ?_⟩
  · intro hsel hgo
    simp [step, hsel, hgo, MainPc.terminal]
  · intro e hsel hgo
    simp [step, hsel, hgo, MainPc.terminal]
  · intro sig rest hsel hbuf
    simp [step, hsel, hbuf, MainPc.terminal]
  · intro s1 hres
    have key : s.mainPc = MainPc.select ∧
        ((∃ err, s.goPc = GoPc.sending err) ∨ s.signalC ≠ []) ∧
        s1.mainPc ≠ MainPc.select := by
      rcases hres with hres | hres
      · by_cases hsel : s.mainPc = MainPc.select
        · rcases hgo : s.goPc with _ | _ | err | _ <;> simp [step, hsel, hgo] at hres
          rcases err with _ | e <;> simp at hres <;> subst hres <;> simp [hsel]
        · simp [step, hsel] at hres
      · by_cases hsel : s.mainPc = MainPc.select
        · rcases hbuf : s.signalC with _ | ⟨sig, rest⟩ <;> simp [step, hsel, hbuf] at hres
          subst hres; simp [hsel]
        · simp [step, hsel] at hres
    obtain ⟨hsel, hready, hterm⟩ := key
    refine ⟨hsel, hready, ?_, ?_, ?_⟩
    · cases hpc : s1.mainPc <;> simp [MainPc.terminal, hpc] at hterm ⊢
    · intro l; exact step_after_select w m l s1 hterm
    · intro s2 h2
      rcases h2 with h2 | h2 <;> rw [step_after_select w m _ s1 hterm] at h2 <;> cases h2

/-- C3: first-signal-wins.  When the `select` takes the signal case, then
whatever the goroutine has done or would still do (not yet run, inside the
engine, or offering any result, an error included) and in whatever world, the
process logs "Signal captured, exiting...", writes nothing to the error stream
and ends with status 0, and no later step can change that.  When the `select`
takes the engine's result, the terminal state, the exit status, the error
stream and the trace are the same whatever `signalC` holds, and a pending
signal is left in the channel. -/
theorem first_signal_wins (w : World) (m : Main) (s : State) :
    (∀ sig rest (g : GoPc), s.mainPc = MainPc.select → s.signalC = sig :: rest →
      step w m Label.recvSignal { s with goPc := g } =
        some { s with
          goPc := g
          mainPc := MainPc.returnedAfterSignal
          signalC := rest
          trace := s.trace ++ [Event.recv Chan.signalC, Event.Infof "Signal captured, exiting..."]
          stderr := s.stderr
          exitStatus := some 0 } ∧
      ∀ (w1 : World) (l : Label) (s1 : State),
        step w m Label.recvSignal { s with goPc := g } = some s1 → step w1 m l s1 = none) ∧
    (∀ (err : Option GoError) (buf : List Signal), s.mainPc = MainPc.select →
      s.goPc = GoPc.sending err →
      ∃ s1 s2, step w m Label.recvFinish s = some s1 ∧
        step w m Label.recvFinish { s with signalC := buf } = some s2 ∧
        s2 = { s1 with signalC := buf } ∧
        s1.mainPc.terminal = some (if err = none then Terminal.Completed else Terminal.Failed) ∧
        s1.exitStatus = some (if err = none then 0 else 1)) := by
  refine ⟨?_, ?_⟩
  · intro sig rest g hsel hbuf
    have h : step w m Label.recvSignal { s with goPc := g } =
        some { s with
          goPc := g
          mainPc := MainPc.returnedAfterSignal
          signalC := rest
          trace := s.trace ++ [Event.recv Chan.signalC, Event.Infof "Signal captured, exiting..."]
          stderr := s.stderr
          exitStatus := some 0 } := by
      simp [step, hsel, hbuf]
    refine ⟨h, ?_⟩
    intro w1 l s1 hs1
    rw [h] at hs1
    apply step_after_select
    cases hs1
    simp
  · intro err buf hsel hgo
    rcases err with _ | e <;> simp [step, hsel, hgo, MainPc.terminal]

/-- C2 at a concrete input: the engine has returned an error, the wait step
takes it, the process ends with status 1 and the error on the error stream. -/
theorem wait_step_terminal_witness :
    ∃ s1, step failingEngineWorld ambientMain Label.recvFinish
        (exec failingEngineWorld ambientMain [Label.goroutineRuns]) = some s1 ∧
      s1.mainPc.terminal = some Terminal.Failed ∧ s1.exitStatus = some 1 ∧
      s1.stderr = "" ++ ("error running operator: " ++ "lost lease") :=
  (wait_step_terminal failingEngineWorld ambientMain
    (exec failingEngineWorld ambientMain [Label.goroutineRuns])).2.1 ⟨"lost lease"⟩ rfl rfl

/-- C3 at a concrete input: the engine has returned an error and a signal is
pending too; the wait step takes the signal and the process ends with status
0. -/
theorem first_signal_wins_witness :
    step failingEngineWorld ambientMain Label.recvSignal
        { exec failingEngineWorld ambientMain [Label.deliver Signal.SIGTERM] with
          goPc := GoPc.sending (some ⟨"lost lease"⟩) } =
      some { exec failingEngineWorld ambientMain [Label.deliver Signal.SIGTERM] with
          goPc := GoPc.sending (some ⟨"lost lease"⟩)
          mainPc := MainPc.returnedAfterSignal
          signalC := []
          trace := (exec failingEngineWorld ambientMain [Label.deliver Signal.SIGTERM]).trace ++
            [Event.recv Chan.signalC, Event.Infof "Signal captured, exiting..."]
          stderr := (exec failingEngineWorld ambientMain [Label.deliver Signal.SIGTERM]).stderr
          exitStatus := some 0 } :=
  ((first_signal_wins failingEngineWorld ambientMain
    (exec failingEngineWorld ambientMain [Label.deliver Signal.SIGTERM])).1
      Signal.SIGTERM [] (GoPc.sending (some ⟨"lost lease"⟩)) rfl rfl).1

/-! ## Theorems: the stop channel -/

/-- No call of `Main.Run` is a channel operation, and the only channel it
passes to the engine is the one it was given. -/
theorem Run_trace (w : World) (m : Main) (stopC : Chan) :
    ∀ ev ∈ (m.Run w stopC).1,
      (∀ c, ev ≠ Event.close c ∧ ev ≠ Event.send c) ∧
      ∀ op c, ev = Event.opRun op c → c = stopC := by
  have htr := getKubernetesClients_trace w m
  intro ev hev
  have hcl : ∀ ev ∈ (m.getKubernetesClients w).1,
      (∀ c, ev ≠ Event.close c ∧ ev ≠ Event.send c) ∧
      ∀ op c, ev = Event.opRun op c → c = stopC := by
    intro ev hev
    rcases htr ev hev with h1 | h1 <;> cases ev <;>
      simp_all [Event.isConfigLoad, Event.isClientConstructor]
  rcases h : m.getKubernetesClients w with ⟨ev1, a, b, c, e⟩
  rw [h] at hcl
  rcases e with _ | e
  · cases hnew : w.operatorNew m.config a b c m.logger with
    | error err =>
      simp [Main.Run, h, hnew] at hev
      rcases hev with rfl | hev | rfl
      · simp
      · exact hcl ev hev
      · simp
    | ok op =>
      simp [Main.Run, h, hnew] at hev
      rcases hev with rfl | hev | rfl | rfl
      · simp
      · exact hcl ev hev
      · simp
      · simp
  · simp [Main.Run, h] at hev
    rcases hev with rfl | hev
    · simp
    · exact hcl ev hev

/-- A step of the process keeps the stop channel untouched. -/
theorem step_stopUntouched (w : World) (m : Main) (l : Label) (s s1 : State)
    (hs : stopUntouched s.trace) (h : step w m l s = some s1) : stopUntouched s1.trace := by
  have hrun := Run_trace w m Chan.stopC
  cases l with
  | goroutineRuns =>
    by_cases hc : s.mainPc = MainPc.select ∧ s.goPc = GoPc.spawned
    · rcases hr : m.Run w Chan.stopC with ⟨ev, r⟩
      rw [hr] at hrun
      have happ : stopUntouched (s.trace ++ ev) := by
        intro e he
        rcases List.mem_append.mp he with he | he
        · exact hs e he
        · exact ⟨((hrun e he).1 _).1, ((hrun e he).1 _).2, (hrun e he).2⟩
      cases r <;> simp [step, hc, hr] at h <;> subst h <;> exact happ
    · simp [step, hc] at h
  | deliver sig =>
    by_cases hc : s.mainPc = MainPc.select
    · by_cases hd : sig ∈ notified ∧ s.signalC.length < 1
      · simp only [step, hc, hd, and_self, if_true, Option.some.injEq] at h
        subst h
        intro e he
        rcases List.mem_append.mp he with he | he
        · exact hs e he
        · simp at he; subst he; simp
      · simp only [step, hc, hd, if_true, if_false, Option.some.injEq] at h
        subst h; exact hs
    · simp [step, hc] at h
  | recvFinish =>
    by_cases hc : s.mainPc = MainPc.select
    · rcases hgo : s.goPc with _ | _ | err | _ <;> simp [step, hc, hgo] at h
      rcases err with _ | e <;> simp at h <;> subst h <;>
        (intro e he
         rcases List.mem_append.mp he with he | he
         · exact hs e he
         · simp at he; casesm* _ ∨ _ <;> subst_vars <;> simp)
    · simp [step, hc] at h
  | recvSignal =>
    by_cases hc : s.mainPc = MainPc.select
    · rcases hbuf : s.signalC with _ | ⟨sig, rest⟩ <;> simp [step, hc, hbuf] at h
      subst h
      intro e he
      rcases List.mem_append.mp he with he | he
      · exact hs e he
      · simp at he; casesm* _ ∨ _ <;> subst_vars <;> simp
    · simp [step, hc] at h

/-- Every schedule keeps the stop channel untouched. -/
theorem exec_stopUntouched (w : World) (m : Main) (ls : List Label) :
    stopUntouched (exec w m ls).trace := by
  have gen : ∀ (ls : List Label) (s : State), stopUntouched s.trace →
      stopUntouched (ls.foldl (fun s l => (step w m l s).getD s) s).trace := by
    intro ls
    induction ls with
    | nil => intro s hs; exact hs
    | cons l ls ih =>
      intro s hs
      simp only [List.foldl_cons]
      apply ih
      cases hst : step w m l s with
      | none => simpa using hs
      | some s1 => simpa using step_stopUntouched w m l s s1 hs hst
  apply gen
  intro e he
  simp [initState] at he
  casesm* _ ∨ _ <;> subst_vars <;> simp

/-- C10: the stop channel made in `main` is handed unchanged through
`Main.Run` to the engine's `Run`, and on no execution path of `main` or
`Main.Run` is it closed or sent on.  `Main.Run` passes the engine the very
channel it was given and performs no close or send at all; after every
schedule of the process the trace holds no close of and no send on the stop
channel, every engine call in it carries the stop channel, and in particular
the stop channel has not fired when `main` has returned after capturing a
signal. -/
theorem stop_channel_never_fired (w : World) (m : Main) (ls : List Label) :
    (∀ (c : Chan) (ev : Event), ev ∈ (m.Run w c).1 →
      (∀ c1, ev ≠ Event.close c1 ∧ ev ≠ Event.send c1) ∧
      ∀ op c1, ev = Event.opRun op c1 → c1 = c) ∧
    (∀ ev ∈ (exec w m ls).trace,
      ev ≠ Event.close Chan.stopC ∧ ev ≠ Event.send Chan.stopC ∧
      ∀ op c, ev = Event.opRun op c → c = Chan.stopC) ∧
    fired Chan.stopC (exec w m ls).trace = false ∧
    ((exec w m ls).mainPc = MainPc.returnedAfterSignal →
      fired Chan.stopC (exec w m ls).trace = false) := by
  have hU := exec_stopUntouched w m ls
  have hf : fired Chan.stopC (exec w m ls).trace = false := by
    unfold fired
    rw [List.any_eq_false]
    intro ev hev
    have := hU ev hev
    simp [this.1, this.2.1]
  exact ⟨fun c ev hev => Run_trace w m c ev hev, hU, hf, fun _ => hf⟩

/-- C10 at a concrete input: the engine is running, SIGTERM arrives, `main`
captures it and returns; the engine was called with the stop channel and the
stop channel has not fired. -/
theorem stop_channel_never_fired_witness :
    (exec blockingWorld ambientMain
      [Label.goroutineRuns, Label.deliver Signal.SIGTERM, Label.recvSignal]).mainPc =
        MainPc.returnedAfterSignal ∧
    Event.opRun ⟨5⟩ Chan.stopC ∈ (exec blockingWorld ambientMain
      [Label.goroutineRuns, Label.deliver Signal.SIGTERM, Label.recvSignal]).trace ∧
    fired Chan.stopC (exec blockingWorld ambientMain
      [Label.goroutineRuns, Label.deliver Signal.SIGTERM, Label.recvSignal]).trace = false :=
  ⟨by decide, by decide,
   (stop_channel_never_fired blockingWorld ambientMain
      [Label.goroutineRuns, Label.deliver Signal.SIGTERM, Label.recvSignal]).2.2.1⟩

/-! ## Theorems: operator/pipeline/crd.go -/

/-- C7: for every typed client and every filter options value `o`, `ListFunc`
and `WatchFunc` of the ListerWatcher each make exactly one call, to
`ListPipelines` respectively `WatchPipelines`, with namespace "" and with `o`
itself, and return the client's (value, error) pair as it is; neither calls the
type registrar. -/
theorem ListerWatcher_passes_through (p : PipelineCRD) (o : ListOptions) :
    (p.GetListerWatcher.ListFunc o).1 = [Event.ListPipelines "" o] ∧
    (p.GetListerWatcher.ListFunc o).2 = p.pipeCli.ListPipelines "" o ∧
    (p.GetListerWatcher.WatchFunc o).1 = [Event.WatchPipelines "" o] ∧
    (p.GetListerWatcher.WatchFunc o).2 = p.pipeCli.WatchPipelines "" o ∧
    ∀ ev ∈ (p.GetListerWatcher.ListFunc o).1 ++ (p.GetListerWatcher.WatchFunc o).1,
      ev.isEnsurePresent = false := by
  refine ⟨rfl, rfl, rfl, rfl, ?_⟩
  intro ev hev
  simp [PipelineCRD.GetListerWatcher] at hev
  rcases hev with rfl | rfl <;> rfl

/-- The method `Initialize` makes one call, `EnsurePresent` with the descriptor built from
the package constants, and returns what that call returns. -/
theorem Initialize_delegates (v : V1alpha1) (p : PipelineCRD) (c : Cluster) :
    p.Initialize v c = ([Event.EnsurePresent (pipelineConf v)],
      p.crdCli.EnsurePresent (pipelineConf v) c) :=
  rfl

/-- C5: with the registrar behind `crdCli`, `Initialize` returns nil whenever
the creation call reports "already exists", which happens when another process
instance registers the type between the registrar's query and its creation
call; and `Initialize` returns an error only when the type was absent and the
creation call failed for another reason, the error being the registration
error for that reason. -/
theorem Initialize_already_exists (api : ClusterAPI) (racing : List Conf) (v : V1alpha1)
    (pipeCli : PipelineInterface) (kubeCli : K8sCli) (c : Cluster) :
    ((Cluster.create api { types := c.types ++ racing } (pipelineConf v)).1 =
        CreateResult.alreadyExists →
      ((newPipelineCRD pipeCli (Registrar.client api racing) kubeCli).Initialize v c).2.1 =
        none) ∧
    (∀ e,
      ((newPipelineCRD pipeCli (Registrar.client api racing) kubeCli).Initialize v c).2.1 =
        some e →
      c.has (pipelineConf v) = false ∧
      ∃ reason,
        (Cluster.create api { types := c.types ++ racing } (pipelineConf v)).1 =
          CreateResult.failed reason ∧
        e = RegistrationError reason) := by
  simp only [PipelineCRD.Initialize, newPipelineCRD, Registrar.client,
    Registrar.EnsurePresent]
  rcases hcr : Cluster.create api { types := c.types ++ racing } (pipelineConf v) with ⟨r, c1⟩
  cases hhas : c.has (pipelineConf v) <;> cases r <;> simp

/-- C5 at a concrete input: the cluster is empty when queried, another
instance registers the type before the creation call, the creation call
reports "already exists", and `Initialize` returns nil. -/
theorem Initialize_already_exists_witness :
    (Cluster.create ⟨fun _ => none⟩ { types := [] ++ [pipelineConf pipelineV1alpha1] }
        (pipelineConf pipelineV1alpha1)).1 = CreateResult.alreadyExists ∧
    ((newPipelineCRD idlePipelineClient
        (Registrar.client ⟨fun _ => none⟩ [pipelineConf pipelineV1alpha1]) ⟨1⟩).Initialize
        pipelineV1alpha1 ⟨[]⟩).2.1 = none :=
  ⟨by decide,
   (Initialize_already_exists ⟨fun _ => none⟩ [pipelineConf pipelineV1alpha1] pipelineV1alpha1
      idlePipelineClient ⟨1⟩ ⟨[]⟩).1 (by decide)⟩

/-- A descriptor matches itself. -/
theorem Conf.sameType_self (d : Conf) : d.sameType d = true := by
  simp [Conf.sameType]

/-- C6: idempotence of registration.  For every descriptor the cluster does
not refuse (a valid descriptor), every cluster state and every interference by
other instances, two calls of `Initialize` in sequence both return nil, and the
registered types after the second call are those after the first. -/
theorem Initialize_idempotent (api : ClusterAPI) (racing : List Conf) (v : V1alpha1)
    (pipeCli : PipelineInterface) (kubeCli : K8sCli) (c : Cluster)
    (hvalid : api.refusal (pipelineConf v) = none) :
    ((newPipelineCRD pipeCli (Registrar.client api racing) kubeCli).Initialize v c).2.1 = none ∧
    ((newPipelineCRD pipeCli (Registrar.client api racing) kubeCli).Initialize v
      ((newPipelineCRD pipeCli (Registrar.client api racing) kubeCli).Initialize v c).2.2).2.1 =
        none ∧
    ((newPipelineCRD pipeCli (Registrar.client api racing) kubeCli).Initialize v
      ((newPipelineCRD pipeCli (Registrar.client api racing) kubeCli).Initialize v c).2.2).2.2 =
        ((newPipelineCRD pipeCli (Registrar.client api racing) kubeCli).Initialize v c).2.2 ∧
    ((newPipelineCRD pipeCli (Registrar.client api racing) kubeCli).Initialize v c).2.2.has
      (pipelineConf v) = true := by
  have hfirst : ∀ c0 : Cluster,
      (Registrar.EnsurePresent api racing (pipelineConf v) c0).1 = none ∧
      (Registrar.EnsurePresent api racing (pipelineConf v) c0).2.has (pipelineConf v) = true := by
    intro c0
    unfold Registrar.EnsurePresent
    cases hhas : c0.has (pipelineConf v)
    · simp only [Cluster.create, hvalid]
      cases hhas2 : Cluster.has { types := c0.types ++ racing } (pipelineConf v)
      · simp [Cluster.has, Conf.sameType_self]
      · simp [hhas2]
    · simp [hhas]
  have hsecond : ∀ c0 : Cluster, c0.has (pipelineConf v) = true →
      Registrar.EnsurePresent api racing (pipelineConf v) c0 = (none, c0) := by
    intro c0 h0
    simp [Registrar.EnsurePresent, h0]
  simp only [PipelineCRD.Initialize, newPipelineCRD, Registrar.client]
  refine ⟨(hfirst c).1, ?_, ?_, (hfirst c).2⟩
  · rw [hsecond _ (hfirst c).2]
  · rw [hsecond _ (hfirst c).2]

/-- C6 at a concrete input: an empty cluster that refuses nothing and the
descriptor of the Pipeline kind; both calls return nil and the second leaves
the one registered type in place. -/
theorem Initialize_idempotent_witness :
    ((newPipelineCRD idlePipelineClient (Registrar.client ⟨fun _ => none⟩ []) ⟨1⟩).Initialize
        pipelineV1alpha1 ⟨[]⟩).2.1 = none ∧
    ((newPipelineCRD idlePipelineClient (Registrar.client ⟨fun _ => none⟩ []) ⟨1⟩).Initialize
        pipelineV1alpha1 ⟨[]⟩).2.2 = ⟨[pipelineConf pipelineV1alpha1]⟩ ∧
    ((newPipelineCRD idlePipelineClient (Registrar.client ⟨fun _ => none⟩ []) ⟨1⟩).Initialize
        pipelineV1alpha1 ⟨[pipelineConf pipelineV1alpha1]⟩).2 =
          (none, ⟨[pipelineConf pipelineV1alpha1]⟩) :=
  ⟨(Initialize_idempotent ⟨fun _ => none⟩ [] pipelineV1alpha1 idlePipelineClient ⟨1⟩ ⟨[]⟩ rfl).1,
   by decide, by decide⟩

/-- C8, the code at the failing input: `GetObject` is not among the methods
declared on `PipelineCRD`, the type that has `GetListerWatcher`; it is declared
on `podTerminatorCRD`, which crd.go does not declare.  Its body returns the
zero value of the resource type whatever the receiver is. -/
theorem GetObject_receiver_mismatch :
    MethodName.GetObject ∉ methodSet TypeName.PipelineCRD ∧
    methodSet TypeName.PipelineCRD = [MethodName.Initialize, MethodName.GetListerWatcher] ∧
    methodSet TypeName.podTerminatorCRD = [MethodName.GetObject] ∧
    TypeName.podTerminatorCRD ∉ declaredTypes ∧
    ∀ (R P : Type) [Inhabited P] (p q : R),
      (GetObject p : P) = default ∧ (GetObject p : P) = GetObject q := by
  refine ⟨by decide, by decide, by decide, by decide, ?_⟩
  intro R P _ p q
  exact ⟨rfl, rfl⟩

/-- C9, the code at the failing input: the typed client of main.go comes from
the package of API group "pipeline.cncd.io", the descriptor and the object of
crd.go from the package of API group "pipeline.duke.lol"; the two group
identifiers differ. -/
theorem api_groups_differ :
    apiGroup agentv1alpha1 = some "pipeline.cncd.io" ∧
    apiGroup pipelinedukev1alpha1 = some "pipeline.duke.lol" ∧
    apiGroup agentv1alpha1 ≠ apiGroup pipelinedukev1alpha1 := by
  refine ⟨by decide, by decide, by decide⟩

end PipelineOperator
